import Mathlib

/-!
Verification of the bulk-fetch / cache / manual-filter pipeline of the
Ticino real-estate bot (`src/api/flatfox_client.py`,
`src/services/search_service.py`, `src/database/db_manager.py`).

The Python code is shallowly embedded: dictionaries become structures of
optional fields, exceptions become an explicit error type, the wall clock
becomes a natural-number timestamp (seconds), and the upstream HTTP source
becomes an explicit list of per-page outcomes passed as a parameter.
-/

namespace TicinoBot

/-- A Python value as observed by the only operations the filter applies to
it: truthiness (`if x:`) and `float(x)` coercion, where `toFloat = none`
means `float(x)` raises `TypeError`/`ValueError`. -/
structure PyVal where
  truthy : Bool
  toFloat : Option ℚ
deriving DecidableEq

/-- A raw listing dictionary as returned by the upstream source, restricted
to the fields the pipeline reads.  `none` on a string field means the key
is absent or maps to `None` (so `item.get(k, '')` yields a falsy value);
`none` on a `PyVal` field means the key is absent or maps to `None`.
The `pk` field keeps the absent key and the explicit null apart, because
`data['pk']` raises `KeyError` only when the key is missing: `none` means
the `'pk'` key is absent, `some none` means it is present but null, and
`some (some k)` means it holds the integer `k`. -/
structure RawListing where
  pk : Option (Option ℤ)
  state : Option String
  city : Option String
  number_of_rooms : Option PyVal
  price_display : Option PyVal
  livingspace : Option PyVal
  offer_type : Option String
  object_category : Option String
deriving DecidableEq

/-- The optional filter arguments of `search_properties` /
`_filter_results_manually` (flatfox_client.py lines 42-51, 208-211). -/
structure FilterCriteria where
  city : Option String
  min_rooms : Option ℚ
  max_rooms : Option ℚ
  max_price : Option ℚ
  min_surface : Option ℚ
  offer_type : Option String
  object_category : Option String
deriving DecidableEq

/-- Python truthiness of an optional numeric filter argument:
`None` and `0` are falsy. -/
def numTruthy : Option ℚ → Bool
  | none => false
  | some m => decide (m ≠ 0)

/-- Python's `str.upper()` (character-wise uppercasing). -/
def sUpper (s : String) : String := ⟨s.data.map Char.toUpper⟩

/-- Python's `str.lower()` (character-wise lowercasing). -/
def sLower (s : String) : String := ⟨s.data.map Char.toLower⟩

/-- Region check, flatfox_client.py lines 226-228:
`item_state = item.get('state', '')`;
skip unless `item_state` is truthy and `item_state.upper() == 'TI'`. -/
def statePass (st : Option String) : Bool :=
  match st with
  | none => false
  | some s => decide (s ≠ "") && (sUpper s == "TI")

/-- Membership of `pat` as a contiguous sublist of `hay`
(the Python `in` operator on strings, after lowercasing). -/
def hasSub (pat : List Char) : List Char → Bool
  | [] => pat.isEmpty
  | c :: t => pat.isPrefixOf (c :: t) || hasSub pat t

/-- City check, lines 231-234: if `city` is truthy, require
`city.lower() in item.get('city', '').lower()`. -/
def cityPass (crit : Option String) (cityF : Option String) : Bool :=
  match crit with
  | none => true
  | some c =>
    if c = "" then true
    else hasSub (sLower c).toList (sLower (cityF.getD "")).toList

/-- Room check, lines 237-246: runs only when `number_of_rooms` is not
`None`; `float()` failure is swallowed (`except: pass`); each bound is
guarded by its own truthiness and compared strictly. -/
def roomPass (minR maxR : Option ℚ) (rooms : Option PyVal) : Bool :=
  match rooms with
  | none => true
  | some v =>
    match v.toFloat with
    | none => true
    | some q =>
      if numTruthy minR && decide (q < minR.getD 0) then false
      else if numTruthy maxR && decide (q > maxR.getD 0) then false
      else true

/-- Price check, lines 249-255: runs only when `max_price` and the
listing's `price_display` are both truthy; `float()` failure retains. -/
def pricePass (maxP : Option ℚ) (price : Option PyVal) : Bool :=
  match maxP, price with
  | some mp, some v =>
    if decide (mp ≠ 0) && v.truthy then
      match v.toFloat with
      | none => true
      | some q => !decide (q > mp)
    else true
  | _, _ => true

/-- Surface check, lines 258-264: same shape as the price check with
`livingspace` and a lower bound. -/
def surfacePass (minS : Option ℚ) (surf : Option PyVal) : Bool :=
  match minS, surf with
  | some ms, some v =>
    if decide (ms ≠ 0) && v.truthy then
      match v.toFloat with
      | none => true
      | some q => !decide (q < ms)
    else true
  | _, _ => true

/-- Offer-type check, lines 267-270: if `offer_type` is truthy, require
`item.get('offer_type', '').upper() == offer_type.upper()`. -/
def offerPass (crit : Option String) (ot : Option String) : Bool :=
  match crit with
  | none => true
  | some t =>
    if t = "" then true
    else sUpper (ot.getD "") == sUpper t

/-- The fixed category lookup table of lines 274-280 (also lines 94-100),
with the `.get(key, key)` identity fallback of line 281. -/
def categoryMap (c : String) : String :=
  if c = "APARTMENT" then "APPT"
  else if c = "HOUSE" then "HOUSE"
  else if c = "PARK" then "PARK"
  else if c = "INDUSTRY" then "INDUS"
  else if c = "SHARED" then "SHARED"
  else c

/-- Category check, lines 273-284: if `object_category` is truthy, map the
uppercased criterion through the table and require equality with the
uppercased listing field. -/
def categoryPass (crit : Option String) (cat : Option String) : Bool :=
  match crit with
  | none => true
  | some c =>
    if c = "" then true
    else sUpper (cat.getD "") == categoryMap (sUpper c)

/-- The per-item body of `_filter_results_manually` (lines 224-287): the
chain of `continue` statements is the conjunction of the checks, in source
order. -/
def passesFilters (crit : FilterCriteria) (item : RawListing) : Bool :=
  statePass item.state &&
  cityPass crit.city item.city &&
  roomPass crit.min_rooms crit.max_rooms item.number_of_rooms &&
  pricePass crit.max_price item.price_display &&
  surfacePass crit.min_surface item.livingspace &&
  offerPass crit.offer_type item.offer_type &&
  categoryPass crit.object_category item.object_category

/-- `_filter_results_manually` (lines 208-289). -/
def filterResultsManually (results : List RawListing) (crit : FilterCriteria) :
    List RawListing :=
  results.filter (passesFilters crit)

/-- The exception classes that can cross function boundaries in this
pipeline.  `search_properties` catches the first three (lines 132-142);
`ZeroDivisionError` is an `ArithmeticError` and is caught nowhere. -/
inductive PyError where
  | timeout
  | requestException
  | valueError
  | zeroDivisionError
deriving DecidableEq

/-- The instance fields `_cache` and `_cache_time` of `FlatfoxClient`
(lines 37-38).  `cacheTime = none` is the initial `None`. -/
structure ClientState where
  cache : List RawListing
  cacheTime : Option ℕ
deriving DecidableEq

/-- `_cache_duration = timedelta(hours=1)` (line 39), in seconds. -/
def cacheDuration : ℕ := 3600

/-- The paging loop of `_get_cached_properties` (lines 162-191).  `pages`
lists the upstream outcome of each successive page request at offsets
0, 100, 200, ...: `none` means the request raised (caught by the per-page
`except` which breaks the loop, keeping what was accumulated), `some pg`
means a body whose `results` list is `pg`; a page shorter than 100 stops
the loop after being kept. -/
def fetchBatch : List (Option (List RawListing)) → List RawListing
  | [] => []
  | none :: _ => []
  | some pg :: rest => if pg.length < 100 then pg else pg ++ fetchBatch rest

/-- The cache-validity test of lines 152-154:
`if self._cache and self._cache_time:` then `age < self._cache_duration`.
Note an empty cached list is falsy, so it never counts as valid. -/
def cacheValid (st : ClientState) (now : ℕ) : Bool :=
  !st.cache.isEmpty &&
    match st.cacheTime with
    | none => false
    | some t => decide (now - t < cacheDuration)

/-- `_get_cached_properties` (lines 144-206), returning the result (or the
escaping exception) together with the updated client state.  The loop caps
at `range(0, 3000, 100)`, i.e. 30 pages.  After the cache is updated
(lines 196-197) the summary log line 203 evaluates
`ti_count/len(all_results)*100` inside an f-string, which raises
`ZeroDivisionError` whenever the fetched batch is empty — the cache is
already replaced at that point. -/
def getCachedProperties (st : ClientState) (now : ℕ)
    (pages : List (Option (List RawListing))) :
    Except PyError (List RawListing) × ClientState :=
  if cacheValid st now then (.ok st.cache, st)
  else
    let allResults := fetchBatch (pages.take 30)
    if allResults.isEmpty then
      (.error PyError.zeroDivisionError, ⟨allResults, some now⟩)
    else (.ok allResults, ⟨allResults, some now⟩)

/-- The returned dictionary of `search_properties` (lines 121-126), with
`next`/`previous` as the booleans "marker is non-null" (`'has_more'` /
`'has_prev'` vs `None`). -/
structure SearchResult where
  count : ℕ
  next : Bool
  previous : Bool
  results : List RawListing
deriving DecidableEq

/-- The dictionary returned from the `except` clauses
(lines 134, 138, 142). -/
def emptySearchResult : SearchResult := ⟨0, false, false, []⟩

/-- The pagination step of `search_properties` (lines 115-126):
`paginated = filtered[offset : offset+limit]`; `next` is non-null iff
`offset+limit < len(filtered)`; `previous` is non-null iff `offset != 0`. -/
def paginateStep (filtered : List RawListing) (limit offset : ℕ) : SearchResult :=
  ⟨filtered.length,
   decide (offset + limit < filtered.length),
   decide (offset ≠ 0),
   (filtered.drop offset).take limit⟩

/-- `search_properties` (lines 42-142): get the cached batch, filter it
manually, paginate.  The `except` clauses catch `Timeout`,
`RequestException` and `ValueError` only; a `ZeroDivisionError` escaping
`_get_cached_properties` propagates to the caller. -/
def searchProperties (crit : FilterCriteria) (limit offset : ℕ)
    (st : ClientState) (now : ℕ)
    (pages : List (Option (List RawListing))) :
    Except PyError SearchResult × ClientState :=
  match getCachedProperties st now pages with
  | (.ok allResults, st') =>
    (.ok (paginateStep (filterResultsManually allResults crit) limit offset), st')
  | (.error PyError.zeroDivisionError, st') =>
    (.error PyError.zeroDivisionError, st')
  | (.error _, st') => (.ok emptySearchResult, st')

/-- The `Property` dataclass (database/models.py lines 48-69), restricted
to the fields this pipeline reads.  The `pk` field is annotated `int` in
the source, but Python dataclasses do not enforce annotations at runtime:
`parse_property` passes `data['pk']` through unchecked, so a listing whose
`'pk'` key holds an explicit null produces `Property(pk=None)`; hence
`pk : Option ℤ` with `none` for that null. -/
structure Property where
  pk : Option ℤ
  offer_type : Option String
  object_category : Option String
  price_display : Option PyVal
  number_of_rooms : Option PyVal
  livingspace : Option PyVal
  city : Option String
  state : Option String
deriving DecidableEq

/-- `parse_property` (flatfox_client.py lines 291-360) restricted to the
claim-relevant fields: `data['pk']` raises `KeyError` only when the key is
MISSING (caught, returning `None`, lines 355-357); a `'pk'` key holding an
explicit null is passed through, yielding a property with a null
identifier.  Every other field is a `.get` pass-through. -/
def parseProperty (d : RawListing) : Option Property :=
  match d.pk with
  | none => none
  | some k =>
    some ⟨k, d.offer_type, d.object_category, d.price_display,
          d.number_of_rooms, d.livingspace, d.city, d.state⟩

/-- `search_and_parse` (lines 362-402): run `search_properties`, keep the
count, parse each raw result and drop parse failures.  It catches
nothing, so an escaping exception propagates. -/
def searchAndParse (crit : FilterCriteria) (limit offset : ℕ)
    (st : ClientState) (now : ℕ)
    (pages : List (Option (List RawListing))) :
    Except PyError (ℕ × List Property) × ClientState :=
  match searchProperties crit limit offset st now pages with
  | (.ok r, st') => (.ok (r.count, r.results.filterMap parseProperty), st')
  | (.error e, st') => (.error e, st')

/-- `check_new_properties` (lines 432-464): `search_and_parse` at
`offset=0` with the given `limit`, returning only the property list. -/
def checkNewProperties (crit : FilterCriteria) (limit : ℕ)
    (st : ClientState) (now : ℕ)
    (pages : List (Option (List RawListing))) :
    Except PyError (List Property) × ClientState :=
  match searchAndParse crit limit 0 st now pages with
  | (.ok pr, st') => (.ok pr.2, st')
  | (.error e, st') => (.error e, st')

/-- The `Alert` dataclass (database/models.py lines 24-36). -/
structure Alert where
  alert_id : Option ℤ
  user_id : ℤ
  city : Option String
  min_rooms : Option ℚ
  max_rooms : Option ℚ
  max_price : Option ℚ
  min_surface : Option ℚ
  offer_type : Option String
  is_active : Bool
  object_category : Option String
deriving DecidableEq

/-- The criteria `check_new_properties_for_alert` forwards
(search_service.py lines 130-138): the alert's `object_category` is NOT
forwarded. -/
def criteriaOfAlert (a : Alert) : FilterCriteria :=
  ⟨a.city, a.min_rooms, a.max_rooms, a.max_price, a.min_surface,
   a.offer_type, none⟩

/-- The `notified_properties` table as the list of (user_id, property_id)
rows, in insertion order. -/
abbrev NotifiedDB : Type := List (ℤ × ℤ)

/-- `is_property_notified` (db_manager.py lines 381-399): row-existence
query `WHERE user_id = ? AND property_id = ?`.  Binding a Python `None`
compares `property_id = NULL`, which in SQL matches no row, so a null
property id always reads as not notified. -/
def isPropertyNotified (db : NotifiedDB) (u : ℤ) (p : Option ℤ) : Bool :=
  match p with
  | none => false
  | some k => decide ((u, k) ∈ db)

/-- `add_notified_property` (db_manager.py lines 357-379):
`INSERT OR IGNORE` into a table with `property_id INTEGER NOT NULL` and
`UNIQUE(user_id, property_id)`.  A duplicate pair is silently skipped (set
semantics), and a null property id violates `NOT NULL`, which `OR IGNORE`
also resolves by silently skipping the row — the call still returns
success.  `mark_property_as_notified` (search_service.py lines 183-193) is
a direct pass-through to it. -/
def addNotifiedProperty (db : NotifiedDB) (u : ℤ) (p : Option ℤ) : NotifiedDB :=
  match p with
  | none => db
  | some k => if (u, k) ∈ db then db else db ++ [(u, k)]

/-- `check_new_properties_for_alert` (search_service.py lines 117-148):
fetch the recent matches for the alert's criteria with limit 50, then drop
the already-notified ones. -/
def checkNewPropertiesForAlert (a : Alert) (db : NotifiedDB)
    (st : ClientState) (now : ℕ)
    (pages : List (Option (List RawListing))) :
    Except PyError (List Property) × ClientState :=
  match checkNewProperties (criteriaOfAlert a) 50 st now pages with
  | (.ok props, st') =>
    (.ok (props.filter (fun p => !isPropertyNotified db a.user_id p.pk)), st')
  | (.error e, st') => (.error e, st')

/-- Marking every delivered property as notified: the per-property
`mark_property_as_notified` calls the notifier performs after successful
delivery. -/
def markAllNotified (db : NotifiedDB) (u : ℤ) (props : List Property) :
    NotifiedDB :=
  props.foldl (fun d p => addNotifiedProperty d u p.pk) db

/-- One caller of `_get_cached_properties` as an interleavable thread.
Program counter: 0 = about to run the cache-validity check (lines
152-156); 1 = observed an invalid cache, about to run the blocking paged
fetch (lines 162-191); 2 = fetch done, about to write `_cache` and
`_cache_time` (lines 196-197); 3 = returned.  The function has no lock, so
any interleaving of these atomic sections is possible; the fetch counter
counts upstream fetch cycles. -/
def threadStep (now : ℕ) (fetched : List RawListing) (sh : ClientState)
    (fc pc : ℕ) : ClientState × ℕ × ℕ :=
  match pc with
  | 0 => if cacheValid sh now then (sh, fc, 3) else (sh, fc, 1)
  | 1 => (sh, fc + 1, 2)
  | 2 => (⟨fetched, some now⟩, fc, 3)
  | _ => (sh, fc, pc)

/-- Shared state plus the program counters of two concurrent callers. -/
structure SysState where
  shared : ClientState
  fetchCount : ℕ
  pc1 : ℕ
  pc2 : ℕ
deriving DecidableEq

/-- Run two concurrent `_get_cached_properties` callers under an explicit
schedule (`true` = step thread 1, `false` = step thread 2). -/
def runSched (now : ℕ) (fetched : List RawListing) :
    List Bool → SysState → SysState
  | [], s => s
  | tid :: rest, s =>
    if tid then
      match threadStep now fetched s.shared s.fetchCount s.pc1 with
      | (sh, fc, pc) => runSched now fetched rest ⟨sh, fc, pc, s.pc2⟩
    else
      match threadStep now fetched s.shared s.fetchCount s.pc2 with
      | (sh, fc, pc) => runSched now fetched rest ⟨sh, fc, s.pc1, pc⟩

/-- A Ticino listing used as concrete test data. -/
def tiListing : RawListing :=
  ⟨some (some 1), some "TI", some "Lugano", some ⟨true, some 3⟩,
   some ⟨true, some 2000⟩, some ⟨true, some 80⟩, some "RENT", some "APPT"⟩

/-- A Zurich listing used as concrete test data. -/
def zhListing : RawListing :=
  ⟨some (some 2), some "ZH", some "Zurich", some ⟨true, some 3⟩,
   some ⟨true, some 1000⟩, some ⟨true, some 70⟩, some "RENT", some "APPT"⟩

/-- The parse of `tiListing`. -/
def tiProperty : Property :=
  ⟨some 1, some "RENT", some "APPT", some ⟨true, some 2000⟩, some ⟨true, some 3⟩,
   some ⟨true, some 80⟩, some "Lugano", some "TI"⟩

/-- The all-`None` argument list of `search_properties`. -/
def defaultCriteria : FilterCriteria :=
  ⟨none, none, none, none, none, none, none⟩

/-- A Ticino listing with a numeric room count of 3 and no other data. -/
def rooms3Listing : RawListing :=
  ⟨some (some 3), some "TI", none, some ⟨true, some 3⟩, none, none, none, none⟩

/-- A Ticino listing whose `'pk'` key is present but holds an explicit
null. -/
def nullPkListing : RawListing :=
  ⟨some none, some "TI", none, none, none, none, none, none⟩

/-- The parse of `nullPkListing`: a property with a null identifier. -/
def nullPkProperty : Property :=
  ⟨none, none, none, none, none, none, none, some "TI"⟩

/-- An alert with no optional criteria, owned by user 7. -/
def alertA : Alert :=
  ⟨some 1, 7, none, none, none, none, none, none, true, none⟩

example : filterResultsManually [tiListing, zhListing] defaultCriteria = [tiListing] := by decide

example : parseProperty tiListing = some tiProperty := rfl

/-- C1: every listing returned by `_filter_results_manually`, for any raw
batch and any criteria, has a `state` field that is present, non-empty,
and uppercases to the fixed target region `"TI"`; listings with a missing,
null or empty `state` are never in the output. -/
theorem c1_region_invariant (results : List RawListing) (crit : FilterCriteria)
    (item : RawListing) (h : item ∈ filterResultsManually results crit) :
    ∃ s, item.state = some s ∧ s ≠ "" ∧ sUpper s = "TI" := by
  have hp : passesFilters crit item = true := List.of_mem_filter h
  unfold passesFilters at hp
  simp only [Bool.and_eq_true] at hp
  obtain ⟨⟨⟨⟨⟨⟨hs, -⟩, -⟩, -⟩, -⟩, -⟩, -⟩ := hp
  cases hst : item.state with
  | none => rw [hst] at hs; simp [statePass] at hs
  | some s =>
    rw [hst] at hs
    unfold statePass at hs
    simp only [Bool.and_eq_true, decide_eq_true_eq, beq_iff_eq] at hs
    exact ⟨s, rfl, hs.1, hs.2⟩

/-- Witness for C1 at a concrete batch, criteria and member. -/
theorem c1_region_invariant_witness :
    ∃ s, tiListing.state = some s ∧ s ≠ "" ∧ sUpper s = "TI" :=
  c1_region_invariant [tiListing] defaultCriteria tiListing (by decide)

/-- C2: the claim says a total fetch failure (zero pages succeed) makes
`search_properties` return the empty result and never propagate an
exception.  The code instead raises: with an invalid cache and every page
request failing, the fetched batch is empty, the summary log line divides
by `len(all_results) = 0`, and the resulting `ZeroDivisionError` is not
among the exception classes `search_properties` catches, so it escapes to
the caller (after the empty batch has already replaced the cache). -/
theorem c2_total_failure_raises :
    searchProperties defaultCriteria 20 0 ⟨[], none⟩ 0 (List.replicate 30 none) =
      (.error PyError.zeroDivisionError, ⟨[], some 0⟩) := rfl

/-- C4: the claim says N concurrent callers observing an expired cache
cause exactly one upstream fetch cycle.  `_get_cached_properties` has no
lock, so the schedule in which both callers run the cache-validity check
before either writes the cache is possible, and it performs two upstream
fetch cycles.  The initial cache is a non-empty batch fetched at time 0,
observed at time 5000 (past the 3600s TTL) by both callers; both finish
(program counter 3) and the fetch counter ends at 2, not 1. -/
theorem c4_no_single_flight :
    cacheValid ⟨[tiListing], some 0⟩ 5000 = false ∧
    (runSched 5000 [zhListing] [true, false, true, false, true, false]
      ⟨⟨[tiListing], some 0⟩, 0, 0, 0⟩).fetchCount = 2 ∧
    (runSched 5000 [zhListing] [true, false, true, false, true, false]
      ⟨⟨[tiListing], some 0⟩, 0, 0, 0⟩).pc1 = 3 ∧
    (runSched 5000 [zhListing] [true, false, true, false, true, false]
      ⟨⟨[tiListing], some 0⟩, 0, 0, 0⟩).pc2 = 3 :=
  ⟨by decide, by decide, by decide, by decide⟩

/-- C9: the category criterion is uppercased, translated through the fixed
table APARTMENT→APPT, HOUSE→HOUSE, PARK→PARK, INDUSTRY→INDUS,
SHARED→SHARED with identity fallback for anything else, and a listing
passes the category check iff its own uppercased `object_category` equals
the translated code. -/
theorem c9_category_mapping :
    (categoryMap "APARTMENT" = "APPT" ∧ categoryMap "HOUSE" = "HOUSE" ∧
     categoryMap "PARK" = "PARK" ∧ categoryMap "INDUSTRY" = "INDUS" ∧
     categoryMap "SHARED" = "SHARED") ∧
    (∀ c : String, c ≠ "APARTMENT" → c ≠ "HOUSE" → c ≠ "PARK" →
      c ≠ "INDUSTRY" → c ≠ "SHARED" → categoryMap c = c) ∧
    (∀ (c : String) (cat : Option String), c ≠ "" →
      (categoryPass (some c) cat = true ↔
        sUpper (cat.getD "") = categoryMap (sUpper c))) := by
  refine ⟨⟨rfl, rfl, rfl, rfl, rfl⟩, ?_, ?_⟩
  · intro c h1 h2 h3 h4 h5
    unfold categoryMap
    rw [if_neg h1, if_neg h2, if_neg h3, if_neg h4, if_neg h5]
  · intro c cat hc
    show (if c = "" then true
      else sUpper (cat.getD "") == categoryMap (sUpper c)) = true ↔ _
    rw [if_neg hc]
    simp [beq_iff_eq]

/-- Witness for C9: an unmapped value falls through unchanged, and a
lowercase criterion with a mixed-case listing field still matches. -/
theorem c9_category_mapping_witness :
    categoryMap "GARAGE" = "GARAGE" ∧
    (categoryPass (some "apartment") (some "Appt") = true ↔
      sUpper ((some "Appt").getD "") = categoryMap (sUpper "apartment")) :=
  ⟨c9_category_mapping.2.1 "GARAGE" (by decide) (by decide) (by decide)
    (by decide) (by decide),
   c9_category_mapping.2.2 "apartment" (some "Appt") (by decide)⟩

lemma roomPass_zero_min (maxR : Option ℚ) (r : Option PyVal) :
    roomPass (some 0) maxR r = roomPass none maxR r := by
  cases r with
  | none => rfl
  | some v =>
    cases h : v.toFloat with
    | none => simp [roomPass, h]
    | some q => simp [roomPass, h, numTruthy]

lemma roomPass_zero_max (minR : Option ℚ) (r : Option PyVal) :
    roomPass minR (some 0) r = roomPass minR none r := by
  cases r with
  | none => rfl
  | some v =>
    cases h : v.toFloat with
    | none => simp [roomPass, h]
    | some q => simp [roomPass, h, numTruthy]

lemma pricePass_zero (p : Option PyVal) :
    pricePass (some 0) p = pricePass none p := by
  cases p <;> simp [pricePass]

lemma surfacePass_zero (p : Option PyVal) :
    surfacePass (some 0) p = surfacePass none p := by
  cases p <;> simp [surfacePass]

/-- C10: a numeric criterion equal to 0 is falsy in Python, so each of
`min_rooms = 0`, `max_rooms = 0`, `max_price = 0`, `min_surface = 0`
filters exactly like the unset criterion, on every batch and in
combination with any other criteria. -/
theorem c10_zero_criterion_is_unset (results : List RawListing)
    (c : Option String) (mnr mxr mxp mns : Option ℚ) (ot cat : Option String) :
    (filterResultsManually results ⟨c, some 0, mxr, mxp, mns, ot, cat⟩ =
      filterResultsManually results ⟨c, none, mxr, mxp, mns, ot, cat⟩) ∧
    (filterResultsManually results ⟨c, mnr, some 0, mxp, mns, ot, cat⟩ =
      filterResultsManually results ⟨c, mnr, none, mxp, mns, ot, cat⟩) ∧
    (filterResultsManually results ⟨c, mnr, mxr, some 0, mns, ot, cat⟩ =
      filterResultsManually results ⟨c, mnr, mxr, none, mns, ot, cat⟩) ∧
    (filterResultsManually results ⟨c, mnr, mxr, mxp, some 0, ot, cat⟩ =
      filterResultsManually results ⟨c, mnr, mxr, mxp, none, ot, cat⟩) := by
  refine ⟨?_, ?_, ?_, ?_⟩ <;>
  · unfold filterResultsManually
    apply List.filter_congr
    intro item _
    unfold passesFilters
    simp [roomPass_zero_min, roomPass_zero_max, pricePass_zero, surfacePass_zero]

/-- C3 counterexample: the cache-validity test `if self._cache and ...`
treats an empty cached batch as no cache at all.  With an empty batch
fetched at time 0 and a call at time 10 (well inside the TTL), the call
does not return the cached batch unchanged: it contacts the upstream,
returns the freshly fetched listing and replaces the cache and its
timestamp. -/
theorem c3_counterexample :
    (10 : ℕ) - 0 < cacheDuration ∧
    getCachedProperties ⟨[], some 0⟩ 10 [some [tiListing]] =
      (.ok [tiListing], ⟨[tiListing], some 10⟩) ∧
    [tiListing] ≠ ([] : List RawListing) :=
  ⟨by decide, rfl, by decide⟩

/-- C3 amended: a call within the TTL returns the cached batch unchanged
without contacting the upstream only when the cached batch is non-empty;
a call that finds the cached batch empty, the timestamp unset, or the TTL
expired performs exactly one refresh that wholesale-replaces both the
cached sequence (with the fetch outcome) and its timestamp (with the
current time). -/
theorem c3_cache_ttl_amended (st : ClientState) (now t : ℕ)
    (pages : List (Option (List RawListing))) :
    (st.cache ≠ [] → st.cacheTime = some t → now - t < cacheDuration →
      getCachedProperties st now pages = (.ok st.cache, st)) ∧
    ((st.cache = [] ∨ st.cacheTime = none ∨
        (∀ u, st.cacheTime = some u → cacheDuration ≤ now - u)) →
      (getCachedProperties st now pages).2 =
        ⟨fetchBatch (pages.take 30), some now⟩) := by
  constructor
  · intro h1 h2 h3
    have hv : cacheValid st now = true := by
      unfold cacheValid
      rw [h2]
      simp [List.isEmpty_iff, h1, h3]
    simp [getCachedProperties, hv]
  · intro h
    have hv : cacheValid st now = false := by
      unfold cacheValid
      rcases h with h | h | h
      · simp [List.isEmpty_iff, h]
      · rw [h]; simp
      · cases hct : st.cacheTime with
        | none => simp
        | some u =>
          have hu := h u hct
          simp [Nat.not_lt.mpr hu]
    simp only [getCachedProperties, hv, Bool.false_eq_true, if_false]
    split <;> rfl

/-- Witness for C3 amended: a non-empty fresh cache is served unchanged,
and an empty cache within the TTL is wholesale-replaced. -/
theorem c3_cache_ttl_amended_witness :
    getCachedProperties ⟨[tiListing], some 0⟩ 100 [] =
      (.ok [tiListing], ⟨[tiListing], some 0⟩) ∧
    (getCachedProperties ⟨[], some 0⟩ 10 [some [tiListing]]).2 =
      ⟨fetchBatch ([some [tiListing]].take 30), some 10⟩ :=
  ⟨(c3_cache_ttl_amended ⟨[tiListing], some 0⟩ 100 0 []).1 (by decide) rfl
     (by decide),
   (c3_cache_ttl_amended ⟨[], some 0⟩ 10 0 [some [tiListing]]).2 (Or.inl rfl)⟩

/-- C6 counterexample: a bound set to 0 is falsy and never enforced.  The
listing with a numeric room count of 3 is retained by a filter whose
`max_rooms` is set to 0, although 3 does not satisfy `<= 0`. -/
theorem c6_counterexample :
    filterResultsManually [rooms3Listing]
      ⟨none, none, some 0, none, none, none, none⟩ = [rooms3Listing] ∧
    ¬((3 : ℚ) ≤ 0) :=
  ⟨by decide, by norm_num⟩

/-- C6 amended: the room filter excludes a listing exactly when its
`number_of_rooms` is present, parses to a number q, and q violates a bound
that is set to a non-zero value (strictly below a non-zero `min_rooms` or
strictly above a non-zero `max_rooms`).  In particular a missing or
unparsable room count is always retained, a room count exactly equal to a
bound never violates that bound (comparisons are strict, so the bounds act
inclusively), and a bound set to 0 imposes no constraint. -/
theorem c6_room_filter_amended (minR maxR : Option ℚ) (rooms : Option PyVal) :
    (rooms = none → roomPass minR maxR rooms = true) ∧
    (∀ v, rooms = some v → v.toFloat = none → roomPass minR maxR rooms = true) ∧
    (∀ v q, rooms = some v → v.toFloat = some q →
      (roomPass minR maxR rooms = false ↔
        ((∃ m, minR = some m ∧ m ≠ 0 ∧ q < m) ∨
         (∃ M, maxR = some M ∧ M ≠ 0 ∧ q > M)))) := by
  refine ⟨?_, ?_, ?_⟩
  · intro h; rw [h]; rfl
  · intro v hv hf; rw [hv]; simp [roomPass, hf]
  · intro v q hv hf
    subst hv
    simp only [roomPass, hf]
    rcases minR with _ | m
    · rcases maxR with _ | M
      · simp [numTruthy]
      · by_cases hM : M = 0 <;> simp [numTruthy, hM]
    · rcases maxR with _ | M
      · by_cases hm : m = 0 <;> simp [numTruthy, hm]
      · by_cases hm : m = 0 <;> by_cases hM : M = 0 <;>
          simp [numTruthy, hm, hM]
        constructor
        · intro himp
          by_cases h1 : q < m
          · exact Or.inl h1
          · exact Or.inr (himp (not_lt.mp h1))
        · intro hor hle
          rcases hor with h1 | h1
          · exact absurd hle (not_le.mpr h1)
          · exact h1

/-- Witness for C6 amended at concrete inputs: a missing room count, an
unparsable room count, and a present count of 3 against bounds
`min_rooms = 1`, `max_rooms = 0`. -/
theorem c6_room_filter_amended_witness :
    roomPass (some 2) (some 3) none = true ∧
    roomPass (some 2) (some 3) (some ⟨true, none⟩) = true ∧
    (roomPass (some 1) (some 0) (some ⟨true, some 3⟩) = false ↔
      ((∃ m, (some (1 : ℚ)) = some m ∧ m ≠ 0 ∧ (3 : ℚ) < m) ∨
       (∃ M, (some (0 : ℚ)) = some M ∧ M ≠ 0 ∧ (3 : ℚ) > M))) :=
  ⟨(c6_room_filter_amended (some 2) (some 3) none).1 rfl,
   (c6_room_filter_amended (some 2) (some 3) (some ⟨true, none⟩)).2.1
     ⟨true, none⟩ rfl rfl,
   (c6_room_filter_amended (some 1) (some 0) (some ⟨true, some 3⟩)).2.2
     ⟨true, some 3⟩ 3 rfl rfl⟩

lemma pagesConcat_take {α : Type} (l : List α) (P k : ℕ) :
    ((List.range k).flatMap fun i => (l.drop (i * P)).take P) = l.take (k * P) := by
  induction k with
  | zero => simp
  | succ k ih =>
    rw [List.range_succ, List.flatMap_append, ih]
    simp only [List.flatMap_cons, List.flatMap_nil, List.append_nil]
    rw [Nat.succ_mul, List.take_add]

/-- C7: the pagination step of `search_properties` reports the full
filtered length as `count`, returns the slice `[offset, offset+limit)`,
sets the `next` marker non-null iff `offset+limit < L` and the `previous`
marker non-null iff `offset > 0`, and concatenating the pages at offsets
0, limit, 2*limit, ... (enough of them to cover the sequence) reproduces
the filtered sequence exactly once; in particular `next` is null exactly
from the page that reaches the end onward. -/
theorem c7_pagination (filtered : List RawListing) (limit offset : ℕ) :
    (paginateStep filtered limit offset).count = filtered.length ∧
    (paginateStep filtered limit offset).results =
      (filtered.drop offset).take limit ∧
    ((paginateStep filtered limit offset).next = true ↔
      offset + limit < filtered.length) ∧
    ((paginateStep filtered limit offset).previous = true ↔ 0 < offset) ∧
    (∀ k, filtered.length ≤ k * limit →
      ((List.range k).flatMap fun i =>
        (paginateStep filtered limit (i * limit)).results) = filtered) := by
  refine ⟨rfl, rfl, by simp [paginateStep], ?_, ?_⟩
  · simp only [paginateStep, decide_eq_true_eq]
    omega
  · intro k hk
    have hres : (fun i => (paginateStep filtered limit (i * limit)).results) =
        fun i => (filtered.drop (i * limit)).take limit := rfl
    rw [hres, pagesConcat_take]
    exact List.take_of_length_le hk

/-- Witness for C7 on a 3-element filtered sequence with page size 2:
count is the full length and the two pages concatenate back to the
sequence. -/
theorem c7_pagination_witness :
    (paginateStep [tiListing, zhListing, rooms3Listing] 2 0).count = 3 ∧
    ((List.range 2).flatMap fun i =>
      (paginateStep [tiListing, zhListing, rooms3Listing] 2 (i * 2)).results) =
      [tiListing, zhListing, rooms3Listing] :=
  ⟨(c7_pagination [tiListing, zhListing, rooms3Listing] 2 0).1,
   (c7_pagination [tiListing, zhListing, rooms3Listing] 2 0).2.2.2.2 2
     (by decide)⟩

/-- C8: the claim says that after marking every property returned by
`check_new_properties_for_alert` via `mark_property_as_notified`, a second
run over the same raw set returns the empty list.  The code violates it:
`parse_property` only guards against a MISSING `'pk'` key, so a listing
whose `'pk'` key holds an explicit null yields a property with a null
identifier; marking it is a silent no-op (`INSERT OR IGNORE` skips the
`NOT NULL` violation on `property_id`) and the dedup lookup
(`property_id = NULL`) never matches, so the second run returns the very
same listing again — it is redelivered on every cycle.  The theorem
evaluates the pipeline at that failing input: the first run returns the
null-pk property, marking stores nothing, and the second run repeats the
first instead of being empty. -/
theorem c8_null_pk_redelivery :
    checkNewPropertiesForAlert alertA [] ⟨[nullPkListing], some 0⟩ 0 [] =
      (.ok [nullPkProperty], ⟨[nullPkListing], some 0⟩) ∧
    markAllNotified [] 7 [nullPkProperty] = [] ∧
    checkNewPropertiesForAlert alertA (markAllNotified [] 7 [nullPkProperty])
      ⟨[nullPkListing], some 0⟩ 0 [] =
      (.ok [nullPkProperty], ⟨[nullPkListing], some 0⟩) ∧
    [nullPkProperty] ≠ ([] : List Property) :=
  ⟨rfl, rfl, rfl, by decide⟩

end TicinoBot
